import Mathlib

/-!
Verification of the docker-tcp-switchboard core (src/docker-tcp-switchboard.py).

The program keeps a process-wide registry (`DockerPorts`) of live docker
instances, keyed by the host "middleport" and grouped by image name, and
enforces a per-image concurrency limit at admission time.  Each accepted
TCP connection asks the registry to `create` an instance; on teardown it
calls `destroy`.

The shallow embedding below mirrors the Python source:

* Python `dict` objects become association lists with `dictGet` / `dictSet`
  / `dictDel` (assignment replaces the value at an existing key, otherwise
  appends; `del` removes the key; a missing key on lookup or `del` is
  modelled as the surrounding operation reporting failure, since Python
  would raise `KeyError`).
* The external world (the docker runtime and sockets) is an oracle record
  `Runtime`: the outcome of `docker run`, of `docker port` parsing, of each
  readiness-probe attempt, and of `docker kill` / `docker rm`.
* Wall-clock time in the readiness-poll loop is discretised in tenths of a
  second: the source's `timeout=5`, `step=0.1` become `timeout = 50`,
  `step = 1`, and each loop iteration advances time by `step` (the loop
  body's own cost is idealised to zero, as the spec does).
* `out.strip()` of the `docker run` output is modelled by letting the
  oracle supply the already-stripped instance id string.
-/

/-- One entry of `DockerPorts.imageParams`, as stored by `registerProxy`
(src lines 17-22): the image name, the opaque docker parameters and the
concurrency limit for one published outer port.  The limit is read with
Python `int(...)` and may be negative, hence `Int`. -/
structure ImageParams where
  imagename : String
  params : String
  limit : Int
deriving DecidableEq, Repr

/-- A `DockerInstance` object (src lines 54-59): the image name given to the
constructor, plus `middleport` and `instanceid`, both `None` until `start`
assigns them.  `tag` is a model-level identity so that distinct Python
objects with equal fields stay distinguishable (Python `list.remove` uses
object equality). -/
structure DockerInstance where
  tag : Nat
  imagename : String
  middleport : Option Nat
  instanceid : Option String
deriving DecidableEq, Repr

/-- Oracle for the external world consumed by one `create`/`start` call:
`runOk = none` models `docker run` exiting nonzero, `some out` its stripped
stdout (the instance id); `portOk = none` models `docker port` exiting
nonzero, `some none` output that fails the port parse, `some (some p)` a
parsed middleport `p`; `ready i` is the outcome of the `i`-th readiness
attempt (`true` iff the TCP connect succeeded and at least one byte was
read); `killOk` / `rmOk` are the exit statuses of `docker kill` and
`docker rm`. -/
structure Runtime where
  runOk : Option String
  portOk : Option (Option Nat)
  ready : Nat → Bool
  killOk : Bool
  rmOk : Bool

/-- `d[k]` on an association-list dict: the value at the first (only)
occurrence of key `k`, or `none` (Python would raise `KeyError`). -/
def dictGet {α β : Type} [DecidableEq α] (k : α) : List (α × β) → Option β
  | [] => none
  | (k', v) :: rest => if k' = k then some v else dictGet k rest

/-- `d[k] = v` on an association-list dict: replace the value at an existing
key, otherwise append the new binding. -/
def dictSet {α β : Type} [DecidableEq α] (k : α) (v : β) : List (α × β) → List (α × β)
  | [] => [(k, v)]
  | (k', v') :: rest => if k' = k then (k, v) :: rest else (k', v') :: dictSet k v rest

/-- `del d[k]` on an association-list dict: drop the first (only) binding of
key `k`. -/
def dictDel {α β : Type} [DecidableEq α] (k : α) : List (α × β) → List (α × β)
  | [] => []
  | (k', v') :: rest => if k' = k then rest else (k', v') :: dictDel k rest

/-- Python `list.remove(x)`: drop the first element equal to `x`. -/
def removeFirst {α : Type} [DecidableEq α] (x : α) : List α → List α
  | [] => []
  | y :: rest => if y = x then rest else y :: removeFirst x rest

/-- The `DockerPorts` registry state (src lines 11-15): instances keyed by
middleport (a key can be Python `None`, hence `Option Nat`), instances
grouped by image name, and the per-outer-port image parameters. -/
structure DockerPorts where
  instancesByPort : List (Option Nat × DockerInstance)
  instancesByName : List (String × List DockerInstance)
  imageParams : List (Nat × ImageParams)
deriving DecidableEq, Repr

/-- The empty registry built by `DockerPorts.__init__` (src lines 12-15). -/
def DockerPorts.init : DockerPorts := ⟨[], [], []⟩

/-- `DockerPorts.registerProxy` (src lines 17-22): store the image
parameters for `outerport`.  Note the source performs a plain dict
assignment, so an already-registered port is silently overwritten. -/
def DockerPorts.registerProxy (dp : DockerPorts) (imagename : String)
    (outerport : Nat) (params : String) (limit : Int) : DockerPorts :=
  { dp with imageParams := dictSet outerport ⟨imagename, params, limit⟩ dp.imageParams }

/-- One readiness attempt, `DockerInstance.__isPortOpen` (src lines
104-118): its outcome as seen by the model.  `connectError` — the
`s.connect` call raised `socket.error`; `recvError` — the connect
succeeded but `s.recv(1)` raised (including a read timeout, since
`socket.timeout` is a `socket.error`); `recvData n` — `s.recv(1)` returned
`n` bytes (`n` is 0 or 1). -/
inductive AttemptOutcome where
  | connectError
  | recvError
  | recvData (n : Nat)
deriving DecidableEq, Repr

/-- `DockerInstance.__isPortOpen` (src lines 104-118): `ret` starts `False`;
after a successful connect and a successful `recv`, `ret = len(data) > 0`;
any `socket.error` on the way leaves `ret = False`. -/
def isPortOpen : AttemptOutcome → Bool
  | .connectError => false
  | .recvError => false
  | .recvData n => decide (0 < n)

/-- The loop of `DockerInstance.__waitForOpenPort` (src lines 120-127),
unrolled on the number of remaining iterations: attempt `i` runs, and on
failure time advances by one step and the loop retries while iterations
remain.  `waitForOpenPort` computes the iteration budget from the timeout
and the step. -/
def waitLoop (ready : Nat → Bool) : Nat → Nat → Bool
  | _, 0 => false
  | i, fuel + 1 => if ready i then true else waitLoop ready (i + 1) fuel

/-- Number of readiness attempts the loop actually performs before
returning (it stops at the first successful attempt, or exhausts the
budget). -/
def waitAttempts (ready : Nat → Bool) : Nat → Nat → Nat
  | _, 0 => 0
  | i, fuel + 1 => if ready i then 1 else waitAttempts ready (i + 1) fuel + 1

/-- `DockerInstance.__waitForOpenPort` (src lines 120-127): with time in
step units, attempt `i` starts at time `i * step`, and the `while
started + timeout >= time.time()` guard admits exactly the attempts with
`i * step ≤ timeout`, i.e. `i ≤ timeout / step` — a budget of
`timeout / step + 1` iterations. -/
def waitForOpenPort (ready : Nat → Bool) (timeout step : Nat) : Bool :=
  waitLoop ready 0 (timeout / step + 1)

/-- The source's default readiness timeout, `timeout=5` seconds, in tenths
of a second. -/
def defaultTimeout : Nat := 50

/-- The source's default poll interval, `step=0.1` seconds, in tenths of a
second. -/
def defaultStep : Nat := 1

/-- Result of `DockerInstance.stop` (src lines 92-102): which of the two
teardown commands were attempted and the returned boolean.  `stop` never
raises: every path ends in a `return`. -/
structure StopResult where
  killAttempted : Bool
  rmAttempted : Bool
  ret : Bool
deriving DecidableEq, Repr

/-- `DockerInstance.stop` (src lines 92-102): run `docker kill`; on nonzero
exit, report and `return False` — `docker rm` is NOT attempted.  Otherwise
run `docker rm`; on nonzero exit, report and `return False`.  Otherwise
`return True`. -/
def DockerInstance.stop (env : Runtime) : StopResult :=
  if env.killOk then
    if env.rmOk then ⟨true, true, true⟩
    else ⟨true, true, false⟩
  else ⟨true, false, false⟩

/-- Result of `DockerInstance.start` (src lines 61-90): the instance with
whatever fields the run assigned, the returned value (`some instanceid` on
success, `none` for Python `None` on failure), and whether `start` called
`self.stop()` internally. -/
structure StartResult where
  inst : DockerInstance
  result : Option String
  stopCalled : Bool
deriving DecidableEq, Repr

/-- `DockerInstance.start` (src lines 61-90): run `docker run --detach`;
on nonzero exit return `None` (no stop).  Record `instanceid`; run
`docker port`; on nonzero exit return `None` (no stop).  Parse the
middleport; on parse failure call `stop` and return `None`.  Otherwise
poll for readiness with the default timeout and step; on success return
the instance id, on timeout call `stop` and return `None`. -/
def DockerInstance.start (d : DockerInstance) (env : Runtime) : StartResult :=
  match env.runOk with
  | none => ⟨d, none, false⟩
  | some out =>
    let d1 := { d with instanceid := some out }
    match env.portOk with
    | none => ⟨d1, none, false⟩
    | some none => ⟨d1, none, true⟩
    | some (some p) =>
      let d2 := { d1 with middleport := some p }
      if waitForOpenPort env.ready defaultTimeout defaultStep then
        ⟨d2, some out, false⟩
      else
        ⟨d2, none, true⟩

/-- Result of `DockerPorts.create` (src lines 24-41): the returned value
(`none` for the Python `None` of an admission denial, `some inst`
otherwise), the registry state after the call, whether a `DockerInstance`
was constructed and `start` invoked, and whether `stop` was called inside
that `start`. -/
structure CreateResult where
  result : Option DockerInstance
  state : DockerPorts
  startCalled : Bool
  stopCalled : Bool
deriving DecidableEq, Repr

/-- The unconditional tail of `DockerPorts.create` (src lines 33-41):
construct a `DockerInstance`, call `start` (its return value is ignored by
the source), then register the instance under `p = instance.middleport` in
`instancesByPort` and append it to `instancesByName[imagename]`, creating
the empty list first when the key is absent. -/
def DockerPorts.createGo (dp : DockerPorts) (ip : ImageParams) (tag : Nat)
    (env : Runtime) : CreateResult :=
  let s := DockerInstance.start ⟨tag, ip.imagename, none, none⟩ env
  let byPort := dictSet s.inst.middleport s.inst dp.instancesByPort
  let byName0 :=
    if (dictGet ip.imagename dp.instancesByName).isSome then dp.instancesByName
    else dictSet ip.imagename [] dp.instancesByName
  let oldList := (dictGet ip.imagename byName0).getD []
  let byName := dictSet ip.imagename (oldList ++ [s.inst]) byName0
  ⟨some s.inst, ⟨byPort, byName, dp.imageParams⟩, true, s.stopCalled⟩

/-- The live-instance count `create` computes as `icount` for an image:
`len(self.instancesByName[imagename])`, read as 0 when the key is absent
(the source only evaluates it under an `in` guard). -/
def countFor (dp : DockerPorts) (img : String) : Nat :=
  ((dictGet img dp.instancesByName).getD []).length

/-- The body of `DockerPorts.create` (src lines 27-41) once the image
parameters of the port are in hand: when the limit is positive and the
image has an entry in `instancesByName`, compute `icount = countFor` and
deny (`return None`, no state change, no instance constructed) when the
count has reached the limit; otherwise run `createGo`. -/
def DockerPorts.createBody (dp : DockerPorts) (ip : ImageParams) (tag : Nat)
    (env : Runtime) : CreateResult :=
  if 0 < ip.limit ∧ (dictGet ip.imagename dp.instancesByName).isSome then
    if ip.limit ≤ (countFor dp ip.imagename : Int) then ⟨none, dp, false, false⟩
    else dp.createGo ip tag env
  else dp.createGo ip tag env

/-- `DockerPorts.create` (src lines 24-41): look up the image parameters of
`outerport` (Python raises `KeyError` when missing — modelled as the outer
`none`) and run the admission check and, unless it denies, the
construct-start-register tail. -/
def DockerPorts.create (dp : DockerPorts) (outerport : Nat) (tag : Nat)
    (env : Runtime) : Option CreateResult :=
  (dictGet outerport dp.imageParams).map fun ip => dp.createBody ip tag env

/-- Result of `DockerPorts.destroy` (src lines 43-48): the registry state
after the call and whether it completed without a Python exception. -/
structure DestroyResult where
  state : DockerPorts
  ok : Bool
deriving DecidableEq, Repr

/-- `DockerPorts.destroy` (src lines 43-48): call `instance.stop()` (its
result is ignored and does not touch the registry), then
`del instancesByPort[p]` — a `KeyError` when `p` is unregistered leaves
the state unchanged — then `instancesByName[n].remove(instance)` — a
`KeyError` (missing image key) or `ValueError` (instance not in the list)
leaves `instancesByName` unchanged, with the `byPort` deletion already
done. -/
def DockerPorts.destroy (dp : DockerPorts) (inst : DockerInstance) : DestroyResult :=
  match dictGet inst.middleport dp.instancesByPort with
  | none => ⟨dp, false⟩
  | some _ =>
    let dp1 := { dp with instancesByPort := dictDel inst.middleport dp.instancesByPort }
    match dictGet inst.imagename dp1.instancesByName with
    | none => ⟨dp1, false⟩
    | some l =>
      if inst ∈ l then
        ⟨{ dp1 with instancesByName := dictSet inst.imagename (removeFirst inst l) dp1.instancesByName }, true⟩
      else ⟨dp1, false⟩

/-- One registry operation, for reasoning about arbitrary sequences of
`create` (connection made) and `destroy` (connection lost) calls. -/
inductive Op where
  | create (outerport tag : Nat) (env : Runtime)
  | destroy (inst : DockerInstance)

/-- The registry state after one operation (the returned values are
discarded; a `create` on an unregistered port raises in Python and leaves
the registry untouched). -/
def applyOp (dp : DockerPorts) : Op → DockerPorts
  | .create p t e =>
    match dp.create p t e with
    | none => dp
    | some r => r.state
  | .destroy i => (dp.destroy i).state

/-- The registry state after a sequence of operations. -/
def applyOps (dp : DockerPorts) (ops : List Op) : DockerPorts :=
  ops.foldl applyOp dp

/-- Every outer port whose registered parameters name image `img` carries
the concurrency limit `N` (the premise under which "the image's configured
concurrencyLimit is N" is meaningful). -/
def imageLimitIs (dp : DockerPorts) (img : String) (N : Int) : Prop :=
  ∀ port ip, dictGet port dp.imageParams = some ip → ip.imagename = img → ip.limit = N

/-- What the client-facing session does in `DockerProxyServer.connectionMade`
(src lines 135-152) after `create` returns: `reject` — write the plaintext
"Maximum connection-count reached." line and close; `relay p` — open an
outbound TCP connection to middleport `p` (`none` is Python `None`). -/
inductive SessionAction where
  | reject
  | relay (middleport : Option Nat)
deriving DecidableEq, Repr

/-- `DockerProxyServer.connectionMade` (src lines 135-152): call
`create(outerport)`; when it returns `None`, write the rejection line,
close, and keep `self.dockerinstance = None`; otherwise attach the
returned instance and `connectTCP` to its middleport.  The outer `none`
is the `KeyError` of an unregistered port.  Returns the action taken, the
attached instance, and the registry state. -/
def connectionMade (dp : DockerPorts) (outerport tag : Nat) (env : Runtime) :
    Option (SessionAction × Option DockerInstance × DockerPorts) :=
  match dp.create outerport tag env with
  | none => none
  | some r =>
    match r.result with
    | none => some (.reject, none, r.state)
    | some inst => some (.relay inst.middleport, some inst, r.state)

/-- A registry with image `sshd` registered on outer port 2222 with
concurrency limit 1 (the bootstrap state of a one-section config). -/
def witReg : DockerPorts := DockerPorts.init.registerProxy "sshd" 2222 "-p 22" 1

/-- A registry with image `web` registered with limit 0 (unlimited). -/
def witReg0 : DockerPorts := DockerPorts.init.registerProxy "web" 8080 "-p 80" 0

/-- A registry with image `db` registered with a negative limit. -/
def witRegNeg : DockerPorts := DockerPorts.init.registerProxy "db" 5432 "-p 5432" (-3)

/-- One already-live `sshd` instance. -/
def witInst : DockerInstance := ⟨0, "sshd", some 12345, some "id1"⟩

/-- `witReg` with `witInst` live: the count for `sshd` equals the limit. -/
def witBusy : DockerPorts :=
  ⟨[(some 12345, witInst)], [("sshd", [witInst])], [(2222, ⟨"sshd", "-p 22", 1⟩)]⟩

/-- A world where every runtime call succeeds and the backend is ready at
the first attempt. -/
def envUp : Runtime := ⟨some "id1", some (some 12345), fun _ => true, true, true⟩

/-- A world where launch and port discovery succeed but the backend never
emits a byte. -/
def envDown : Runtime := ⟨some "id1", some (some 12345), fun _ => false, true, true⟩

/-- A world where `docker run` exits nonzero. -/
def envRunFail : Runtime := ⟨none, some (some 12345), fun _ => false, true, true⟩

/-- A world where `docker kill` fails and `docker rm` would succeed. -/
def envKillFail : Runtime := ⟨none, none, fun _ => false, false, true⟩

/-- The instance object `create` constructs on `witReg` when `docker run`
fails: both runtime-assigned fields still `None`. -/
def instFailC2 : DockerInstance := ⟨0, "sshd", none, none⟩

/-- The registry state `create` leaves behind in that failed run: the
failed instance is registered under middleport `None` and counted against
`sshd`. -/
def stateFailC2 : DockerPorts :=
  ⟨[(none, instFailC2)], [("sshd", [instFailC2])], [(2222, ⟨"sshd", "-p 22", 1⟩)]⟩

/-! ### Dictionary lemmas -/

/-- Looking up a key just assigned returns the assigned value. -/
theorem dictGet_dictSet_self {α β : Type} [DecidableEq α] (k : α) (v : β) :
    ∀ d : List (α × β), dictGet k (dictSet k v d) = some v := by
  intro d
  induction d with
  | nil => simp [dictGet, dictSet]
  | cons hd tl ih =>
    obtain ⟨k', v'⟩ := hd
    by_cases h : k' = k
    · simp [dictGet, dictSet, h]
    · simp [dictGet, dictSet, h, ih]

/-- Assigning one key does not change the lookup of another. -/
theorem dictGet_dictSet_ne {α β : Type} [DecidableEq α] {k' k : α} (v : β)
    (h : k' ≠ k) : ∀ d : List (α × β), dictGet k (dictSet k' v d) = dictGet k d := by
  intro d
  induction d with
  | nil => simp [dictGet, dictSet, h]
  | cons hd tl ih =>
    obtain ⟨k'', v''⟩ := hd
    by_cases h2 : k'' = k'
    · subst h2; simp [dictGet, dictSet, h]
    · simp [dictGet, dictSet, h2, ih]

/-- Removing an element never lengthens a list. -/
theorem removeFirst_length_le {α : Type} [DecidableEq α] (x : α) :
    ∀ l : List α, (removeFirst x l).length ≤ l.length := by
  intro l
  induction l with
  | nil => simp [removeFirst]
  | cons y rest ih =>
    by_cases h : y = x
    · simp [removeFirst, h]
    · simp only [removeFirst, if_neg h, List.length_cons]; omega

/-! ### Behaviour of `create`, `createGo` and `destroy` -/

/-- Every successful `create` call either denied admission and returned the
state unchanged, or ran the construct-start-register tail `createGo` for
the parameters registered at the port. -/
theorem create_cases (dp : DockerPorts) (p t : Nat) (e : Runtime) (r : CreateResult)
    (h : dp.create p t e = some r) :
    r = ⟨none, dp, false, false⟩ ∨
      ∃ ip, dictGet p dp.imageParams = some ip ∧ r = dp.createGo ip t e := by
  unfold DockerPorts.create at h
  cases hip : dictGet p dp.imageParams with
  | none => rw [hip] at h; exact absurd h (by simp)
  | some ip =>
    rw [hip] at h
    simp only [Option.map_some', Option.some.injEq] at h
    unfold DockerPorts.createBody at h
    split_ifs at h with h1 h2
    · left; exact h.symm
    · right; exact ⟨ip, rfl, h.symm⟩
    · right; exact ⟨ip, rfl, h.symm⟩

/-- When the registered limit is positive and the live count for the image
has reached it, `create` denies: it returns `None` and the registry is
untouched, with no instance constructed or started. -/
theorem create_denied (dp : DockerPorts) (port tag : Nat) (env : Runtime)
    (ip : ImageParams) (h : dictGet port dp.imageParams = some ip)
    (hpos : 0 < ip.limit) (hge : ip.limit ≤ (countFor dp ip.imagename : Int)) :
    dp.create port tag env = some ⟨none, dp, false, false⟩ := by
  have hsome : (dictGet ip.imagename dp.instancesByName).isSome := by
    cases hg : dictGet ip.imagename dp.instancesByName with
    | none =>
      exfalso
      unfold countFor at hge
      rw [hg] at hge
      simp at hge
      omega
    | some l => simp
  unfold DockerPorts.create DockerPorts.createBody
  rw [h, Option.map_some', if_pos ⟨hpos, hsome⟩, if_pos hge]

/-- When the live count is below a positive limit, or the limit is zero or
negative, `create` takes the construct-start-register path. -/
theorem create_eq_createGo (dp : DockerPorts) (port tag : Nat) (env : Runtime)
    (ip : ImageParams) (h : dictGet port dp.imageParams = some ip)
    (hc : (countFor dp ip.imagename : Int) < ip.limit ∨ ip.limit ≤ 0) :
    dp.create port tag env = some (dp.createGo ip tag env) := by
  unfold DockerPorts.create DockerPorts.createBody
  rw [h, Option.map_some']
  by_cases hcond : 0 < ip.limit ∧ (dictGet ip.imagename dp.instancesByName).isSome
  · have hlt : (countFor dp ip.imagename : Int) < ip.limit := by
      rcases hc with hlt | hle
      · exact hlt
      · exact absurd hcond.1 (by omega)
    rw [if_pos hcond, if_neg (by omega)]
  · rw [if_neg hcond]

/-- `createGo` appends exactly one instance to its image's list: the count
for that image grows by one. -/
theorem countFor_createGo_self (dp : DockerPorts) (ip : ImageParams) (tag : Nat)
    (env : Runtime) {img : String} (himg : ip.imagename = img) :
    countFor (dp.createGo ip tag env).state img = countFor dp img + 1 := by
  subst himg
  unfold DockerPorts.createGo countFor
  cases hg : dictGet ip.imagename dp.instancesByName with
  | none => simp [hg, dictGet_dictSet_self]
  | some l => simp [hg, dictGet_dictSet_self]

/-- `createGo` leaves the count of every other image unchanged. -/
theorem countFor_createGo_ne (dp : DockerPorts) (ip : ImageParams) (tag : Nat)
    (env : Runtime) {img : String} (hne : ip.imagename ≠ img) :
    countFor (dp.createGo ip tag env).state img = countFor dp img := by
  unfold DockerPorts.createGo countFor
  by_cases hg : (dictGet ip.imagename dp.instancesByName).isSome
  · simp [hg, dictGet_dictSet_ne _ hne]
  · simp [hg, dictGet_dictSet_ne _ hne]

/-- `destroy` never increases any image's live count (it removes at most
one instance from one list). -/
theorem countFor_destroy_le (dp : DockerPorts) (inst : DockerInstance) (img : String) :
    countFor (dp.destroy inst).state img ≤ countFor dp img := by
  unfold DockerPorts.destroy
  cases h1 : dictGet inst.middleport dp.instancesByPort with
  | none => exact le_refl _
  | some v =>
    dsimp only
    cases h2 : dictGet inst.imagename dp.instancesByName with
    | none => exact le_refl _
    | some l =>
      dsimp only
      by_cases hm : inst ∈ l
      · rw [if_pos hm]
        by_cases himg : inst.imagename = img
        · subst himg
          unfold countFor
          dsimp only
          rw [dictGet_dictSet_self, h2]
          simp only [Option.getD_some]
          exact removeFirst_length_le inst l
        · unfold countFor
          dsimp only
          rw [dictGet_dictSet_ne _ himg]
      · rw [if_neg hm]
        exact le_refl _

/-- `destroy` never touches the image-parameter table. -/
theorem destroy_state_imageParams (dp : DockerPorts) (i : DockerInstance) :
    (dp.destroy i).state.imageParams = dp.imageParams := by
  unfold DockerPorts.destroy
  cases h1 : dictGet i.middleport dp.instancesByPort with
  | none => rfl
  | some v =>
    dsimp only
    cases h2 : dictGet i.imagename dp.instancesByName with
    | none => rfl
    | some l =>
      dsimp only
      by_cases hm : i ∈ l
      · rw [if_pos hm]
      · rw [if_neg hm]

/-- Neither `create` nor `destroy` touches the image-parameter table. -/
theorem applyOp_imageParams (dp : DockerPorts) (op : Op) :
    (applyOp dp op).imageParams = dp.imageParams := by
  cases op with
  | create p t e =>
    simp only [applyOp]
    cases hc : dp.create p t e with
    | none => rfl
    | some r =>
      dsimp only
      rcases create_cases dp p t e r hc with hr | ⟨ip, hip, hr⟩
      · subst hr; rfl
      · subst hr; rfl
  | destroy i =>
    simp only [applyOp]
    exact destroy_state_imageParams dp i

/-- One step of the concurrency-limit invariant: when every port of image
`img` is registered with limit `N > 0` and the live count is within the
limit, it stays within the limit after any single `create` or `destroy`. -/
theorem countFor_applyOp_le (dp : DockerPorts) (op : Op) (img : String) (N : Int)
    (hN : 0 < N) (hp : imageLimitIs dp img N) (h : (countFor dp img : Int) ≤ N) :
    (countFor (applyOp dp op) img : Int) ≤ N := by
  cases op with
  | destroy i =>
    have hd := countFor_destroy_le dp i img
    simp only [applyOp]
    omega
  | create p t e =>
    simp only [applyOp]
    cases hc : dp.create p t e with
    | none => exact h
    | some r =>
      dsimp only
      rcases create_cases dp p t e r hc with hr | ⟨ip, hip, hr⟩
      · subst hr; exact h
      · subst hr
        by_cases himg : ip.imagename = img
        · have hlim : ip.limit = N := hp p ip hip himg
          by_cases hge : N ≤ (countFor dp img : Int)
          · exfalso
            have hd := create_denied dp p t e ip hip (by omega)
              (by rw [hlim, himg]; exact hge)
            rw [hc] at hd
            injection hd with hd
            have : (dp.createGo ip t e).result = none := by rw [hd]
            simp [DockerPorts.createGo] at this
          · push_neg at hge
            rw [countFor_createGo_self dp ip t e himg]
            push_cast
            omega
        · rw [countFor_createGo_ne dp ip t e himg]
          exact h

/-- The concurrency-limit invariant is preserved by any sequence of
`create` and `destroy` operations. -/
theorem countFor_applyOps_le (img : String) (N : Int) (hN : 0 < N) :
    ∀ (ops : List Op) (dp : DockerPorts), imageLimitIs dp img N →
      (countFor dp img : Int) ≤ N → (countFor (applyOps dp ops) img : Int) ≤ N := by
  intro ops
  induction ops with
  | nil => intro dp _ h; exact h
  | cons op rest ih =>
    intro dp hp h
    have hstep := countFor_applyOp_le dp op img N hN hp h
    have hp2 : imageLimitIs (applyOp dp op) img N := by
      intro port ip hget himg
      rw [applyOp_imageParams] at hget
      exact hp port ip hget himg
    simpa [applyOps, List.foldl] using ih (applyOp dp op) hp2 hstep

/-! ### The readiness-poll loop -/

/-- The poll loop succeeds exactly when some attempt within its iteration
budget succeeds. -/
theorem waitLoop_eq_true_iff (ready : Nat → Bool) :
    ∀ (fuel i : Nat), waitLoop ready i fuel = true ↔ ∃ j < fuel, ready (i + j) = true := by
  intro fuel
  induction fuel with
  | zero => intro i; simp [waitLoop]
  | succ f ih =>
    intro i
    unfold waitLoop
    cases hr : ready i with
    | true =>
      rw [if_pos rfl]
      exact ⟨fun _ => ⟨0, by omega, by simpa using hr⟩, fun _ => rfl⟩
    | false =>
      rw [if_neg (by simp), ih (i + 1)]
      constructor
      · rintro ⟨j, hj, hready⟩
        refine ⟨j + 1, by omega, ?_⟩
        have harith : i + 1 + j = i + (j + 1) := by omega
        rwa [harith] at hready
      · rintro ⟨j, hj, hready⟩
        cases j with
        | zero =>
          rw [Nat.add_zero] at hready
          rw [hready] at hr
          exact absurd hr (by simp)
        | succ j2 =>
          refine ⟨j2, by omega, ?_⟩
          have harith : i + 1 + j2 = i + (j2 + 1) := by omega
          rw [harith]
          exact hready

/-- `waitForOpenPort` succeeds exactly when some attempt with index at most
`timeout / step` succeeds: the loop guard admits attempt `i` while
`i * step ≤ timeout`. -/
theorem waitForOpenPort_iff (ready : Nat → Bool) (timeout step : Nat) :
    waitForOpenPort ready timeout step = true ↔
      ∃ j ≤ timeout / step, ready j = true := by
  unfold waitForOpenPort
  rw [waitLoop_eq_true_iff]
  constructor
  · rintro ⟨j, hj, hready⟩; exact ⟨j, by omega, by simpa using hready⟩
  · rintro ⟨j, hj, hready⟩; exact ⟨j, by omega, by simpa using hready⟩

/-- When attempt `j` is the first success and lies within the budget, the
loop performs exactly `j + 1` attempts: it stops at the first success. -/
theorem waitAttempts_first_success (ready : Nat → Bool) :
    ∀ (fuel i j : Nat), j < fuel → ready (i + j) = true →
      (∀ k < j, ready (i + k) = false) → waitAttempts ready i fuel = j + 1 := by
  intro fuel
  induction fuel with
  | zero => intro i j hj; omega
  | succ f ih =>
    intro i j hj hready hfirst
    unfold waitAttempts
    cases j with
    | zero => simp at hready; simp [hready]
    | succ j2 =>
      have h0 : ready i = false := by simpa using hfirst 0 (by omega)
      rw [h0, if_neg (by simp)]
      have := ih (i + 1) j2 (by omega)
        (by simpa [Nat.add_assoc, Nat.add_comm 1 j2] using hready)
        (fun k hk => by simpa [Nat.add_assoc, Nat.add_comm 1 k] using hfirst (k + 1) (by omega))
      omega

/-- When every attempt in the budget fails, the loop performs all of them. -/
theorem waitAttempts_all_fail (ready : Nat → Bool) :
    ∀ (fuel i : Nat), (∀ j < fuel, ready (i + j) = false) →
      waitAttempts ready i fuel = fuel := by
  intro fuel
  induction fuel with
  | zero => intro i _; rfl
  | succ f ih =>
    intro i hall
    unfold waitAttempts
    have h0 : ready i = false := by simpa using hall 0 (by omega)
    rw [h0, if_neg (by simp)]
    have := ih (i + 1) (fun j hj => by
      simpa [Nat.add_assoc, Nat.add_comm 1 j] using hall (j + 1) (by omega))
    omega

/-- When launch and port discovery succeed, `start` reduces to the
readiness poll: success returns the instance id without stopping, timeout
stops the instance and returns `None`; either way the instance carries the
discovered middleport and id. -/
theorem start_eq_of_launch_ok (d : DockerInstance) (env : Runtime) (idstr : String)
    (p : Nat) (hrun : env.runOk = some idstr) (hport : env.portOk = some (some p)) :
    d.start env =
      if waitForOpenPort env.ready defaultTimeout defaultStep then
        ⟨⟨d.tag, d.imagename, some p, some idstr⟩, some idstr, false⟩
      else
        ⟨⟨d.tag, d.imagename, some p, some idstr⟩, none, true⟩ := by
  unfold DockerInstance.start
  rw [hrun, hport]

/-! ### Claim theorems -/

/-- C1.  For every image whose configured concurrencyLimit is `N > 0`
(every port registered for the image carries limit `N`), after any
sequence of `create` and `destroy` operations the number of registered
live instances of the image never exceeds `N`; moreover a single `create`
on a port of the image denies (returns `None`, natively unchanged state,
nothing constructed) whenever the current count is at least `N`, and
otherwise takes the register path and adds exactly one instance to the
image's list. -/
theorem spec_c1_per_image_concurrency_limit (dp0 : DockerPorts) (img : String)
    (N : Int) (ops : List Op) (hN : 0 < N) (hparams : imageLimitIs dp0 img N)
    (h0 : (countFor dp0 img : Int) ≤ N) :
    ((countFor (applyOps dp0 ops) img : Int) ≤ N) ∧
    (∀ port tag env ip, dictGet port dp0.imageParams = some ip → ip.imagename = img →
      ((N ≤ (countFor dp0 img : Int) →
          dp0.create port tag env = some ⟨none, dp0, false, false⟩) ∧
       ((countFor dp0 img : Int) < N →
          dp0.create port tag env = some (dp0.createGo ip tag env) ∧
          countFor (dp0.createGo ip tag env).state img = countFor dp0 img + 1))) := by
  refine ⟨countFor_applyOps_le img N hN ops dp0 hparams h0, ?_⟩
  intro port tag env ip hip himg
  have hlim : ip.limit = N := hparams port ip hip himg
  constructor
  · intro hge
    exact create_denied dp0 port tag env ip hip (by omega)
      (by rw [hlim, himg]; exact hge)
  · intro hlt
    exact ⟨create_eq_createGo dp0 port tag env ip hip
        (Or.inl (by rw [hlim, himg]; exact hlt)),
      countFor_createGo_self dp0 ip tag env himg⟩

/-- Witness for C1: limit 1 for `sshd`, two back-to-back connection
attempts; the registered count stays at most 1. -/
theorem spec_c1_witness :
    (0 : Int) < 1 ∧
      (countFor (applyOps witReg [Op.create 2222 0 envUp, Op.create 2222 1 envUp])
          "sshd" : Int) ≤ 1 :=
  ⟨by decide,
    (spec_c1_per_image_concurrency_limit witReg "sshd" 1
        [Op.create 2222 0 envUp, Op.create 2222 1 envUp] (by decide)
        (by
          intro port ip hget himg
          simp only [witReg, DockerPorts.registerProxy, DockerPorts.init, dictSet] at hget
          simp only [dictGet] at hget
          split at hget
          · injection hget with hh
            subst hh
            rfl
          · exact absurd hget (by simp))
        (by decide)).1⟩

/-- C2 (code bug).  The spec says a failed `start` yields a StartFailed
error and no registration, but `create` ignores the return value of
`start` (src line 34): with `docker run` failing, `start` returns `None`,
yet `create` returns the dead instance as if successful and registers it
in both mappings — `instancesByPort` gains a key `None` and the image's
count grows by one. -/
theorem spec_c2_start_failure_still_registered :
    (DockerInstance.start instFailC2 envRunFail).result = none ∧
    witReg.create 2222 0 envRunFail = some ⟨some instFailC2, stateFailC2, true, false⟩ ∧
    stateFailC2.instancesByPort ≠ witReg.instancesByPort ∧
    countFor stateFailC2 "sshd" = countFor witReg "sshd" + 1 := by
  decide

/-- C3 (counterexample).  The claim says `docker rm` is attempted even
when `docker kill` fails; in the code a failing kill returns early
(src lines 95-97): with `killOk = false` the kill is attempted but the
remove is not. -/
theorem spec_c3_counterexample_kill_failure_skips_rm :
    (DockerInstance.stop envKillFail).killAttempted = true ∧
    (DockerInstance.stop envKillFail).rmAttempted = false := by
  decide

/-- C3 (amended).  `stop` always attempts the terminate step and never
raises; the remove step is attempted exactly when the terminate step
succeeded, and the returned boolean is true exactly when both steps
succeeded. -/
theorem spec_c3_stop_terminate_then_remove (env : Runtime) :
    (DockerInstance.stop env).killAttempted = true ∧
    (DockerInstance.stop env).rmAttempted = env.killOk ∧
    (DockerInstance.stop env).ret = (env.killOk && env.rmOk) := by
  rcases env with ⟨ro, po, rd, k, r⟩
  cases k <;> cases r <;> simp [DockerInstance.stop]

/-- C4 (code bug).  The spec says a StartFailed acquire makes the session
write the rejection line and attach no instance; because `create` never
signals start failure (it returns the dead instance), `connectionMade`
takes the success branch: it attaches the failed instance and attempts a
relay to middleport `None` instead of rejecting. -/
theorem spec_c4_start_failed_attaches_instance :
    (DockerInstance.start instFailC2 envRunFail).result = none ∧
    connectionMade witReg 2222 0 envRunFail =
      some (SessionAction.relay none, some instFailC2, stateFailC2) ∧
    SessionAction.relay (none : Option Nat) ≠ SessionAction.reject := by
  decide

/-- C5.  On a port whose image has a positive limit already reached,
`create` returns the admission denial with no side effects: the state is
returned unchanged and no instance is constructed or started. -/
theorem spec_c5_denial_without_side_effects (dp : DockerPorts) (port tag : Nat)
    (env : Runtime) (ip : ImageParams) (h : dictGet port dp.imageParams = some ip)
    (hpos : 0 < ip.limit) (hge : ip.limit ≤ (countFor dp ip.imagename : Int)) :
    dp.create port tag env = some ⟨none, dp, false, false⟩ :=
  create_denied dp port tag env ip h hpos hge

/-- Witness for C5: one live `sshd` instance against limit 1; the next
`create` denies and changes nothing. -/
theorem spec_c5_witness :
    witBusy.create 2222 1 envUp = some ⟨none, witBusy, false, false⟩ :=
  spec_c5_denial_without_side_effects witBusy 2222 1 envUp ⟨"sshd", "-p 22", 1⟩
    rfl (by decide) (by decide)

/-- C6 (counterexample).  Two `registerProxy` calls with the same outer
port: the second call succeeds and silently replaces the stored
configuration instead of failing. -/
theorem spec_c6_counterexample_second_registration_wins :
    ((DockerPorts.init.registerProxy "alpha" 2200 "pa" 1).registerProxy
        "beta" 2200 "pb" 2).imageParams = [(2200, ⟨"beta", "pb", 2⟩)] ∧
    dictGet 2200 ((DockerPorts.init.registerProxy "alpha" 2200 "pa" 1).registerProxy
        "beta" 2200 "pb" 2).imageParams = some ⟨"beta", "pb", 2⟩ := by
  decide

/-- C6 (amended).  A repeated `registerProxy` on the same outer port never
fails: it overwrites, so the port's parameters afterwards are exactly
those of the second call. -/
theorem spec_c6_reregistration_overwrites (dp : DockerPorts) (i1 i2 : String)
    (port : Nat) (pa pb : String) (l1 l2 : Int) :
    dictGet port ((dp.registerProxy i1 port pa l1).registerProxy i2 port pb l2).imageParams
      = some ⟨i2, pb, l2⟩ := by
  unfold DockerPorts.registerProxy
  dsimp only
  rw [dictGet_dictSet_self]

/-- C7.  With limit 0 the admission check is skipped entirely: `create`
always takes the construct-start-register path and never returns the
denial `None`. -/
theorem spec_c7_zero_limit_never_denied (dp : DockerPorts) (port tag : Nat)
    (env : Runtime) (ip : ImageParams) (h : dictGet port dp.imageParams = some ip)
    (hz : ip.limit = 0) :
    dp.create port tag env = some (dp.createGo ip tag env) ∧
      (dp.createGo ip tag env).result ≠ none := by
  refine ⟨create_eq_createGo dp port tag env ip h (Or.inr (by omega)), ?_⟩
  simp [DockerPorts.createGo]

/-- Witness for C7: the `web` image registered with limit 0 is admitted. -/
theorem spec_c7_witness :
    witReg0.create 8080 0 envUp = some (witReg0.createGo ⟨"web", "-p 80", 0⟩ 0 envUp) ∧
      (witReg0.createGo ⟨"web", "-p 80", 0⟩ 0 envUp).result ≠ none :=
  spec_c7_zero_limit_never_denied witReg0 8080 0 envUp ⟨"web", "-p 80", 0⟩ rfl rfl

/-- C10.  The guard `imagelimit > 0` makes any non-positive limit skip the
admission check: a negative limit behaves exactly like the documented
0-is-unlimited case and `create` never returns the denial `None`. -/
theorem spec_c10_nonpositive_limit_never_denied (dp : DockerPorts) (port tag : Nat)
    (env : Runtime) (ip : ImageParams) (h : dictGet port dp.imageParams = some ip)
    (hz : ip.limit ≤ 0) :
    dp.create port tag env = some (dp.createGo ip tag env) ∧
      (dp.createGo ip tag env).result ≠ none := by
  refine ⟨create_eq_createGo dp port tag env ip h (Or.inr hz), ?_⟩
  simp [DockerPorts.createGo]

/-- Witness for C10: the `db` image registered with limit -3 is admitted. -/
theorem spec_c10_witness :
    witRegNeg.create 5432 0 envUp = some (witRegNeg.createGo ⟨"db", "-p 5432", -3⟩ 0 envUp) ∧
      (witRegNeg.createGo ⟨"db", "-p 5432", -3⟩ 0 envUp).result ≠ none :=
  spec_c10_nonpositive_limit_never_denied witRegNeg 5432 0 envUp ⟨"db", "-p 5432", -3⟩
    rfl (by decide)

/-- C8.  A readiness attempt reports the backend ready if and only if the
TCP connect succeeded and the subsequent `recv(1)` returned at least one
byte; a connect with zero bytes read or any socket error is not ready. -/
theorem spec_c8_ready_iff_byte_received (o : AttemptOutcome) :
    isPortOpen o = true ↔ ∃ n, o = AttemptOutcome.recvData n ∧ 0 < n := by
  cases o with
  | connectError => simp [isPortOpen]
  | recvError => simp [isPortOpen]
  | recvData n =>
    simp only [isPortOpen, decide_eq_true_eq]
    constructor
    · intro hn
      exact ⟨n, rfl, hn⟩
    · rintro ⟨m, hm, hpos⟩
      injection hm with hm
      subst hm
      exact hpos

/-- C9.  With launch and port discovery successful, readiness polling
performs one attempt per step and stops at the first success or when the
iteration budget derived from the total timeout runs out: if every attempt
in the window fails, `start` calls `stop` and returns `None` after using
the whole budget; if attempt `j` in the window is the first success, the
loop performs exactly `j + 1` attempts and `start` returns the instance id
without stopping. -/
theorem spec_c9_poll_until_success_or_timeout (d : DockerInstance) (env : Runtime)
    (idstr : String) (p : Nat) (hrun : env.runOk = some idstr)
    (hport : env.portOk = some (some p)) :
    ((∀ j, j ≤ defaultTimeout / defaultStep → env.ready j = false) →
      (d.start env).result = none ∧ (d.start env).stopCalled = true ∧
      waitAttempts env.ready 0 (defaultTimeout / defaultStep + 1)
        = defaultTimeout / defaultStep + 1) ∧
    (∀ j, j ≤ defaultTimeout / defaultStep → env.ready j = true →
      (∀ k, k < j → env.ready k = false) →
      (d.start env).result = some idstr ∧ (d.start env).stopCalled = false ∧
      waitAttempts env.ready 0 (defaultTimeout / defaultStep + 1) = j + 1) := by
  have hstart := start_eq_of_launch_ok d env idstr p hrun hport
  constructor
  · intro hall
    have hw : waitForOpenPort env.ready defaultTimeout defaultStep = false := by
      cases hwx : waitForOpenPort env.ready defaultTimeout defaultStep with
      | false => rfl
      | true =>
        rcases (waitForOpenPort_iff env.ready defaultTimeout defaultStep).1 hwx
          with ⟨j, hj, hready⟩
        rw [hall j hj] at hready
        exact absurd hready (by simp)
    rw [hstart, hw]
    refine ⟨by simp, by simp, ?_⟩
    exact waitAttempts_all_fail env.ready (defaultTimeout / defaultStep + 1) 0
      (fun j hj => by simpa using hall j (by omega))
  · intro j hj hready hfirst
    have hw : waitForOpenPort env.ready defaultTimeout defaultStep = true :=
      (waitForOpenPort_iff env.ready defaultTimeout defaultStep).2 ⟨j, hj, hready⟩
    rw [hstart, hw]
    refine ⟨by simp, by simp, ?_⟩
    exact waitAttempts_first_success env.ready (defaultTimeout / defaultStep + 1) 0 j
      (by omega) (by simpa using hready) (fun k hk => by simpa using hfirst k hk)

/-- Witness for C9: a backend that never emits a byte makes `start` stop
the instance and report failure after the full attempt budget. -/
theorem spec_c9_witness :
    ((DockerInstance.mk 7 "web" none none).start envDown).result = none ∧
    ((DockerInstance.mk 7 "web" none none).start envDown).stopCalled = true ∧
    waitAttempts envDown.ready 0 (defaultTimeout / defaultStep + 1)
      = defaultTimeout / defaultStep + 1 :=
  (spec_c9_poll_until_success_or_timeout ⟨7, "web", none, none⟩ envDown "id1" 12345
      rfl rfl).1 (fun _ _ => rfl)
